import Mathlib

/-!
Verification development for the `catastro-mcp-latam` service.

The definitions below are a shallow embedding of the two core modules:

* `src/api/models/catastro.py` — the `CatastroService` class: address
  normalization (`_normalize_address`), tiered address matching
  (`find_predio_by_address`), the geocoding fallback
  (`find_predio_by_geocoding`), placeholder nearest-record resolution
  (`find_nearest_predio`), record formatting (`_format_predio_info`),
  and the derived attributes (`_determinar_estrato`,
  `_calcular_valor_catastral`), plus the static POI provider
  (`find_nearby_pois`).
* `src/api/utils/geocode.py` — the `GeocodingService` class:
  `geocode_address` with Google-primary / Nominatim-fallback policy,
  `_geocode_nominatim`, `_convert_nominatim_to_google_format`, and
  `extract_location_data`.

Modelling conventions:

* Strings are Lean `String`s; the character-level pipeline of
  `_normalize_address` is written over `List Char` (`String.data`).
* Python float arithmetic is modelled with exact rationals `ℚ`; the
  concrete values proved below were checked to agree with IEEE-754
  double evaluation at those inputs.
* Network I/O (`requests.get` + `response.json()`) is modelled by oracle
  parameters of type `Except String α`: `.error e` stands for a raised
  transport/parse exception, `.ok v` for a successfully parsed response.
  An operation that lets an exception escape returns `.error e`.
* The pandas DataFrame `predios_df` is modelled as a list of typed rows
  together with the optional derived `normalized_address` column; the
  Python attribute value `None` is the `Option.none` of the state.
* `DataFrame.sample(1)` (a global-RNG draw) is modelled by an extra
  `Nat` oracle parameter choosing the sampled row index modulo the
  dataset size.
-/

/-! ## Character-level helpers for `_normalize_address` -/

/-- Python `\s` for the ASCII range: the whitespace characters collapsed by
`re.sub(r'\s+', ' ', address)` and stripped by `str.strip()`. -/
def isSpaceChar (c : Char) : Bool :=
  c = ' ' || c = '\t' || c = '\n' || c = '\r' || c = '\x0b' || c = '\x0c'

/-- Python `str.lower` restricted to the alphabet the service sees:
ASCII letters plus the uppercase accented Spanish vowels and `Ñ`/`Ü`;
identity elsewhere. -/
def pyLower (c : Char) : Char :=
  if 'A' ≤ c ∧ c ≤ 'Z' then Char.ofNat (c.toNat + 32)
  else if c = 'Á' then 'á'
  else if c = 'É' then 'é'
  else if c = 'Í' then 'í'
  else if c = 'Ó' then 'ó'
  else if c = 'Ú' then 'ú'
  else if c = 'Ñ' then 'ñ'
  else if c = 'Ü' then 'ü'
  else c

/-- `re.sub(r'\s+', ' ', s)`: every maximal run of whitespace characters
becomes a single `' '`. -/
def collapseWs : List Char → List Char
  | [] => []
  | [c] => if isSpaceChar c then [' '] else [c]
  | c₁ :: c₂ :: rest =>
    if isSpaceChar c₁ && isSpaceChar c₂ then collapseWs (c₂ :: rest)
    else (if isSpaceChar c₁ then ' ' else c₁) :: collapseWs (c₂ :: rest)

/-- Python `str.strip()`: drop whitespace from both ends. -/
def stripWs (l : List Char) : List Char :=
  ((l.dropWhile isSpaceChar).reverse.dropWhile isSpaceChar).reverse

/-- `leadsWith pat s` is true when `pat` occurs at the very start of `s`
(the check `str.replace` performs at each scan position). -/
def leadsWith : List Char → List Char → Bool
  | [], _ => true
  | _ :: _, [] => false
  | p :: ps, c :: cs => p = c && leadsWith ps cs

/-- Fuel-driven scan of Python `str.replace(pat, rep)`: left-to-right,
non-overlapping; on a match, emit `rep` and resume after the matched
text.  The fuel is initialised to the length of the subject string by
`replaceAll`, which makes every call total and structurally
kernel-evaluable; one unit of fuel is spent per character consumed, so
the fuel never runs out on the initialisation below. -/
def replAux (pat rep : List Char) : Nat → List Char → List Char
  | _, [] => []
  | 0, s => s
  | Nat.succ f, c :: t =>
    if leadsWith pat (c :: t) then
      rep ++ replAux pat rep f (t.drop (pat.length - 1))
    else
      c :: replAux pat rep f t

/-- Python `s.replace(pat, rep)` for a non-empty `pat` (every key of the
service's replacement table is non-empty). -/
def replaceAll (pat rep s : List Char) : List Char :=
  replAux pat rep s.length s

/-- The ordered replacement table of `_normalize_address` (dict literal,
iterated in insertion order).  The tenth key is the four-character
literal `no\.` exactly as the Python source spells it: `'no\.'` is a
regex-style escape handed to the literal `str.replace`, so the key
contains a real backslash. -/
def replacements : List (String × String) :=
  [("calle", "cl"), ("carrera", "kr"), ("avenida", "av"), ("diagonal", "dg"),
   ("transversal", "tv"), ("sur", "s"), ("norte", "n"), ("este", "e"),
   ("oeste", "o"), ("no\\.", ""), ("numero", ""), ("#", ""), ("-", " ")]

/-- The `for old, new in replacements.items(): address = address.replace(old, new)`
loop. -/
def applyRepls (s : List Char) : List Char :=
  replacements.foldl (fun acc pr => replaceAll pr.1.data pr.2.data acc) s

/-- The first eleven replacement-table steps (everything before the
`'#'` and `'-'` entries), as a single function. -/
def applyReplsBeforeHash (s : List Char) : List Char :=
  (replacements.take 11).foldl (fun acc pr => replaceAll pr.1.data pr.2.data acc) s

/-- Stage 1 of `_normalize_address`: `address.lower()`. -/
def pyLowerStr (s : String) : String :=
  ⟨s.data.map pyLower⟩

/-- Stage 2 of `_normalize_address`: `re.sub(r'\s+', ' ', address).strip()`. -/
def squashWs (s : String) : String :=
  ⟨stripWs (collapseWs s.data)⟩

/-- Stage 3 of `_normalize_address`: the replacement-table loop. -/
def applyReplsStr (s : String) : String :=
  ⟨applyRepls s.data⟩

/-- `CatastroService._normalize_address` (src/api/models/catastro.py,
lines 51–87): lower-case, collapse whitespace and trim, then apply the
ordered literal replacement table. -/
def normalizeAddress (s : String) : String :=
  applyReplsStr (squashWs (pyLowerStr s))

/-- Substring containment over character lists (the semantics of pandas
`Series.str.contains(needle, regex=False)` on one cell). -/
def containsSub (h n : List Char) : Bool :=
  leadsWith n h ||
    (match h with
     | [] => false
     | _ :: t => containsSub t n)

/-- `hasSubstr hay needle`: `needle in hay` / `str.contains(needle, regex=False)`. -/
def hasSubstr (hay needle : String) : Bool :=
  containsSub hay.data needle.data

/-! ## Cadastral data model (`src/api/models/catastro.py`) -/

/-- One row of the parcel CSV `TPREDIO.csv`, with the columns
`_format_predio_info`, `_determinar_estrato` and
`_calcular_valor_catastral` read.  Numeric columns are typed (`ℚ` for
the areas coerced with `float(...)`, `Int` for the score coerced with
`int(...)`), so the per-record `try/except` of `_format_predio_info`
(which only fires on a malformed cell) has no failing case in this
model. -/
structure Predio where
  PRECHIP : String
  PRENUPRE : String
  PREDIRECC : String
  PRENBARRIO : String
  PREATERRE : ℚ
  PREACONST : ℚ
  PRECUSO : String
  PREPUNTAJE : Int
  PREVETUSTZ : String
deriving DecidableEq

/-- The in-memory pandas DataFrame `self.predios_df`: the typed rows of
the loaded CSV plus the derived `normalized_address` column, which is
absent right after `load_data` and is assigned (one normalized string
per row, in row order) by `find_predio_by_address`. -/
structure DataFrame where
  rows : List Predio
  normalizedCol : Option (List String)
deriving DecidableEq

/-- The formatted `"predio"` payload built by `_format_predio_info`. -/
structure PredioInfo where
  chip : String
  numero_predial : String
  direccion : String
  barrio : String
  area_terreno : ℚ
  area_construida : ℚ
  uso_codigo : String
  uso_descripcion : String
  estrato : Int
  anio_construccion : String
  valor_catastral : ℚ
deriving DecidableEq

/-- The structured result every matching operation returns:
`{"success": True, "predio": ...}` or `{"success": False, "error": ...}`. -/
inductive FindResult where
  | ok (predio : PredioInfo)
  | fail (error : String)
deriving DecidableEq

/-- The use-code table `uso_mapping` of `_format_predio_info`
(lines 192–233). -/
def usoMapping : List (String × String) :=
  [("001", "Residencial"), ("002", "Comercial"), ("003", "Industrial"),
   ("004", "Dotacional"), ("005", "Urbanizado No Edificado"),
   ("006", "Urbanizable No Urbanizado"), ("007", "No Urbanizable"),
   ("008", "Rural"), ("009", "Minero"),
   ("010", "Comercial en Corredor Comercial"),
   ("011", "Comercial en Centro Comercial"),
   ("012", "Depósitos de Almacenamiento"), ("013", "Dotacional Privado"),
   ("014", "Dotacional Público"),
   ("015", "Urbanizado No Edificado en Desarrollo"), ("016", "Vías"),
   ("017", "Unidad Residencial"), ("018", "Unidad Comercial"),
   ("019", "Unidad Industrial"), ("020", "Unidad Dotacional"),
   ("021", "Parqueadero Cubierto"), ("022", "Parqueadero Descubierto"),
   ("023", "Bodega"), ("024", "Garaje Cubierto"),
   ("025", "Garaje Descubierto"), ("026", "Zonas Comunes"),
   ("027", "Bien Exclusivo"), ("028", "Agrícola"), ("029", "Pecuario"),
   ("030", "Agroindustrial"), ("031", "Recreacional"),
   ("032", "Habitacional"), ("033", "Forestal"),
   ("034", "Preservación Ambiental"), ("035", "Agrícola con Vivienda"),
   ("036", "Pecuario con Vivienda"), ("037", "Agroindustrial con Vivienda"),
   ("038", "Recreacional con Vivienda"), ("039", "Forestal con Vivienda"),
   ("040", "Preservación Ambiental con Vivienda")]

/-- `uso_mapping.get(uso_codigo, 'Desconocido')`. -/
def usoDescripcion (code : String) : String :=
  match usoMapping.lookup code with
  | some d => d
  | none => "Desconocido"

/-- `CatastroService._determinar_estrato` (lines 262–287): step function
of the integer score `PREPUNTAJE`. -/
def determinarEstrato (puntaje : Int) : Int :=
  if puntaje < 30 then 1
  else if puntaje < 45 then 2
  else if puntaje < 60 then 3
  else if puntaje < 75 then 4
  else if puntaje < 90 then 5
  else 6

/-- Python `round(q, 2)` over exact rationals: round `100*q` to the
nearest integer, ties to even (banker's rounding), divide back. -/
def roundHalfEven (q : ℚ) : ℤ :=
  let f : ℤ := ⌊q⌋
  let r : ℚ := q - (f : ℚ)
  if r < 1/2 then f
  else if 1/2 < r then f + 1
  else if 2 ∣ f then f else f + 1

/-- `round(x, 2)`. -/
def round2 (q : ℚ) : ℚ :=
  (roundHalfEven (100 * q) : ℚ) / 100

/-- `CatastroService._calcular_valor_catastral` (lines 289–312). -/
def calcularValorCatastral (areaTerreno areaConstruida : ℚ) (puntaje : Int) : ℚ :=
  let valorBaseM2 : ℚ := (puntaje : ℚ) * 50000
  let valorTerreno : ℚ := areaTerreno * valorBaseM2 * (3/10)
  let valorConstruccion : ℚ := areaConstruida * valorBaseM2 * (7/10)
  round2 (valorTerreno + valorConstruccion)

/-- `CatastroService._format_predio_info` (lines 181–260) on a typed row
(the `except` branch is unreachable over typed cells, see `Predio`). -/
def formatPredioInfo (p : Predio) : FindResult :=
  .ok
    { chip := p.PRECHIP
      numero_predial := p.PRENUPRE
      direccion := p.PREDIRECC
      barrio := p.PRENBARRIO
      area_terreno := p.PREATERRE
      area_construida := p.PREACONST
      uso_codigo := p.PRECUSO
      uso_descripcion := usoDescripcion p.PRECUSO
      estrato := determinarEstrato p.PREPUNTAJE
      anio_construccion := p.PREVETUSTZ
      valor_catastral := calcularValorCatastral p.PREATERRE p.PREACONST p.PREPUNTAJE }

/-! ## Geocoding module (`src/api/utils/geocode.py`) -/

/-- One entry of a Google-format `address_components` list. -/
structure AddressComponent where
  long_name : String
  short_name : String
  types : List String
deriving DecidableEq

/-- A `{lat, lng}` pair. -/
structure LatLng where
  lat : ℚ
  lng : ℚ
deriving DecidableEq

/-- A Google-format viewport. -/
structure Viewport where
  northeast : LatLng
  southwest : LatLng
deriving DecidableEq

/-- A Google-format `geometry` object. -/
structure Geometry where
  location : LatLng
  location_type : String
  viewport : Viewport
deriving DecidableEq

/-- One entry of a Google-format `results` list. -/
structure GeoResult where
  formatted_address : String
  geometry : Geometry
  place_id : String
  types : List String
  address_components : List AddressComponent
deriving DecidableEq

/-- The canonical (Google-shaped) geocode response `{status, results}`. -/
structure GeocodeResult where
  status : String
  results : List GeoResult
deriving DecidableEq

/-- One parsed Nominatim result, with the fields
`_convert_nominatim_to_google_format` reads.  `lat`/`lon` are typed `ℚ`
(the `float(result.get("lat", 0))` coercion on a well-formed response);
`addr` is the `"address"` sub-object as an ordered key/value list;
`classField` is the `"class"` JSON field. -/
structure NominatimResult where
  lat : ℚ
  lon : ℚ
  display_name : String
  addr : List (String × String)
  place_id : String
  classField : String
deriving DecidableEq

/-- `GeocodingService._convert_nominatim_to_google_format`
(src/api/utils/geocode.py, lines 114–177). -/
def convertNominatimToGoogleFormat (nominatimResults : List NominatimResult) :
    GeocodeResult :=
  match nominatimResults with
  | [] => { status := "ZERO_RESULTS", results := [] }
  | l =>
    { status := "OK"
      results := l.map fun r =>
        { formatted_address := r.display_name
          geometry :=
            { location := { lat := r.lat, lng := r.lon }
              location_type := "APPROXIMATE"
              viewport :=
                { northeast := { lat := r.lat + 1/100, lng := r.lon + 1/100 }
                  southwest := { lat := r.lat - 1/100, lng := r.lon - 1/100 } } }
          place_id := r.place_id
          types := r.classField.splitOn ","
          address_components := r.addr.map fun kv =>
            { long_name := kv.2, short_name := kv.2, types := [kv.1] } } }

/-- `GeocodingService._geocode_nominatim` (lines 79–112): the HTTP call
and JSON parse are the oracle `resp`; an `.error` (raised requests/parse
exception) propagates uncaught, an `.ok` list is converted to the
canonical shape. -/
def geocodeNominatim (resp : Except String (List NominatimResult)) :
    Except String GeocodeResult :=
  match resp with
  | .error e => .error e
  | .ok l => .ok (convertNominatimToGoogleFormat l)

/-- `GeocodingService.geocode_address` (lines 35–55).  `useGoogle` is
`self.use_google` (an API key is configured); `googleResp` is the
outcome of `self._geocode_google(address, country)` (`.error` = raised
exception, caught by the `try/except` and logged); `nomResp` is the
outcome of the Nominatim HTTP call + parse. -/
def geocodeAddress (useGoogle : Bool)
    (googleResp : Except String GeocodeResult)
    (nomResp : Except String (List NominatimResult)) :
    Except String GeocodeResult :=
  if useGoogle then
    match googleResp with
    | .ok r => if r.status = "OK" then .ok r else geocodeNominatim nomResp
    | .error _ => geocodeNominatim nomResp
  else
    geocodeNominatim nomResp

/-- The structured result of `extract_location_data`. -/
inductive LocationResult where
  | ok (coordinates : LatLng) (formatted_address : String)
      (address_components : List (String × String))
  | fail (error : String)
deriving DecidableEq

/-- Python dict insertion `d[k] = v`: replace the value in place if the
key exists, otherwise append at the end. -/
def dictInsert : List (String × String) → String → String → List (String × String)
  | [], k, v => [(k, v)]
  | (k', v') :: rest, k, v =>
    if k' = k then (k, v) :: rest else (k', v') :: dictInsert rest k v

/-- `GeocodingService.extract_location_data` (lines 179–219). -/
def extractLocationData (g : GeocodeResult) : LocationResult :=
  if g.status ≠ "OK" ∨ g.results.isEmpty then
    .fail "No se encontraron resultados para la dirección proporcionada"
  else
    match g.results with
    | [] => .fail "No se encontraron resultados para la dirección proporcionada"
    | r :: _ =>
      let components :=
        r.address_components.foldl
          (fun d comp => comp.types.foldl (fun d t => dictInsert d t comp.long_name) d)
          []
      .ok r.geometry.location r.formatted_address components

/-! ## Service operations (`src/api/models/catastro.py`) -/

/-- The error payload for an unavailable/empty dataset. -/
def noDataErr : String := "No hay datos catastrales cargados"

/-- The error payload when the geocoding fallback finds nothing. -/
def noGeocodeErr : String := "No se pudo geocodificar la dirección proporcionada"

/-- `CatastroService.find_nearest_predio` (lines 156–179).  The
dataframe is `df` (`none` = the attribute is `None`); `pick` models the
global-RNG draw of `self.predios_df.sample(1)` as a row index taken
modulo the dataset size.  The coordinate arguments are ignored by the
source (placeholder behaviour). -/
def findNearestPredio (df : Option DataFrame) (lat lon : ℚ) (pick : Nat) :
    FindResult :=
  match df with
  | none => .fail noDataErr
  | some d =>
    match d.rows with
    | [] => .fail noDataErr
    | p :: ps => formatPredioInfo ((p :: ps).getD (pick % (p :: ps).length) p)

/-- `CatastroService.find_predio_by_geocoding` (lines 125–154).  The
provider oracles are threaded through to `geocodeAddress`; a raised
Nominatim exception (`.error`) propagates out of this method too. -/
def findPredioByGeocoding (df : Option DataFrame) (address : String)
    (useGoogle : Bool) (googleResp : Except String GeocodeResult)
    (nomResp : Except String (List NominatimResult)) (pick : Nat) :
    Except String FindResult :=
  match geocodeAddress useGoogle googleResp nomResp with
  | .error e => .error e
  | .ok gr =>
    if gr.status ≠ "OK" ∨ gr.results.isEmpty then
      .ok (.fail noGeocodeErr)
    else
      match extractLocationData gr with
      | .fail e => .ok (.fail e)
      | .ok coords _ _ => .ok (findNearestPredio df coords.lat coords.lng pick)

/-- `CatastroService.find_predio_by_address` (lines 89–123), with the
mutation of `self.predios_df` made explicit: the returned `DataFrame`
option is the dataframe after the call.  On a non-empty dataset the
method first assigns the derived `normalized_address` column
(line 106) and only then selects exact matches, partial matches, or the
geocoding fallback; the exception result (`.error`) is a raised
Nominatim exception escaping through the fallback. -/
def findPredioByAddress (df : Option DataFrame) (address : String)
    (useGoogle : Bool) (googleResp : Except String GeocodeResult)
    (nomResp : Except String (List NominatimResult)) (pick : Nat) :
    Except String FindResult × Option DataFrame :=
  match df with
  | none => (.ok (.fail noDataErr), none)
  | some d =>
    match d.rows with
    | [] => (.ok (.fail noDataErr), some d)
    | _ :: _ =>
      let normalizedQuery := normalizeAddress address
      let d' : DataFrame :=
        { d with normalizedCol := some (d.rows.map fun p => normalizeAddress p.PREDIRECC) }
      match d.rows.find? (fun p => normalizeAddress p.PREDIRECC == normalizedQuery) with
      | some p => (.ok (formatPredioInfo p), some d')
      | none =>
        match d.rows.find? (fun p => hasSubstr (normalizeAddress p.PREDIRECC) normalizedQuery) with
        | some p => (.ok (formatPredioInfo p), some d')
        | none =>
          (findPredioByGeocoding (some d') address useGoogle googleResp nomResp pick,
           some d')

/-- One simulated point of interest of `find_nearby_pois`. -/
structure Poi where
  tipo : String
  nombre : String
  distancia : ℚ
  direccion : String
deriving DecidableEq

/-- The structured result of `find_nearby_pois`. -/
structure PoisResult where
  success : Bool
  pois : List Poi
deriving DecidableEq

/-- `CatastroService.find_nearby_pois` (lines 314–360): a fixed
simulated list, independent of the inputs. -/
def findNearbyPois (lat lon radius : ℚ) : PoisResult :=
  { success := true
    pois :=
      [{ tipo := "Colegio", nombre := "Colegio Distrital", distancia := 1205/10,
         direccion := "Calle 65 #10-45" },
       { tipo := "Parque", nombre := "Parque Vecinal", distancia := 2003/10,
         direccion := "Carrera 11 #66-20" },
       { tipo := "Transporte", nombre := "Estación Transmilenio", distancia := 3508/10,
         direccion := "Avenida Caracas #63-10" },
       { tipo := "Comercio", nombre := "Centro Comercial", distancia := 4502/10,
         direccion := "Calle 67 #9-30" }] }

/-- State-passing view of `find_nearest_predio`: the method body never
assigns `self.predios_df`, so the state component is returned
unchanged. -/
def findNearestPredioSt (df : Option DataFrame) (lat lon : ℚ) (pick : Nat) :
    FindResult × Option DataFrame :=
  (findNearestPredio df lat lon pick, df)

/-- State-passing view of `find_nearby_pois`: the method body never
touches `self.predios_df`. -/
def findNearbyPoisSt (df : Option DataFrame) (lat lon radius : ℚ) :
    PoisResult × Option DataFrame :=
  (findNearbyPois lat lon radius, df)

/-- A concrete parcel row used by the closed counterexamples and
witnesses below. -/
def predioW0 : Predio :=
  { PRECHIP := "AAA0001AAAA", PRENUPRE := "001101001001", PREDIRECC := "CL 10",
    PRENBARRIO := "Centro", PREATERRE := 100, PREACONST := 80,
    PRECUSO := "001", PREPUNTAJE := 50, PREVETUSTZ := "1990" }

/-- A second concrete parcel row (exact-match candidate) for the
C5 witness dataset. -/
def predioW1 : Predio :=
  { PRECHIP := "BBB0002BBBB", PRENUPRE := "001101001002", PREDIRECC := "CL 1",
    PRENBARRIO := "Centro", PREATERRE := 108, PREACONST := 176,
    PRECUSO := "002", PREPUNTAJE := 50, PREVETUSTZ := "1985" }

/-! ## Helper lemmas -/

lemma containsSub_nil_right (h : List Char) : containsSub h [] = true := by
  cases h <;> rfl

lemma hasSubstr_empty_needle (s : String) : hasSubstr s "" = true :=
  containsSub_nil_right s.data

lemma mem_of_mem_replAux {a : Char} (pat rep : List Char) :
    ∀ (f : Nat) (s : List Char), a ∈ replAux pat rep f s → a ∈ s ∨ a ∈ rep := by
  intro f
  induction f with
  | zero =>
    intro s h
    cases s with
    | nil => simp [replAux] at h
    | cons c t => exact Or.inl h
  | succ f ih =>
    intro s h
    cases s with
    | nil => simp [replAux] at h
    | cons c t =>
      rw [replAux] at h
      cases hcond : leadsWith pat (c :: t) with
      | true =>
        rw [hcond, if_pos rfl] at h
        rcases List.mem_append.mp h with hrep | hrec
        · exact Or.inr hrep
        · rcases ih _ hrec with hdrop | hrep
          · exact Or.inl (List.mem_cons_of_mem c (List.mem_of_mem_drop hdrop))
          · exact Or.inr hrep
      | false =>
        rw [hcond] at h
        simp only [Bool.false_eq_true, if_false] at h
        rcases List.mem_cons.mp h with hc | hrec
        · exact Or.inl (hc ▸ List.mem_cons_self a t)
        · rcases ih _ hrec with ht | hrep
          · exact Or.inl (List.mem_cons_of_mem c ht)
          · exact Or.inr hrep

lemma not_mem_replAux_single {c : Char} {rep : List Char} (hrep : c ∉ rep) :
    ∀ (f : Nat) (s : List Char), s.length ≤ f → c ∉ replAux [c] rep f s := by
  intro f
  induction f with
  | zero =>
    intro s hlen
    have hs : s = [] := List.length_eq_zero.mp (Nat.le_zero.mp hlen)
    subst hs
    simp [replAux]
  | succ f ih =>
    intro s hlen
    cases s with
    | nil => simp [replAux]
    | cons x t =>
      have hlt : t.length ≤ f := Nat.le_of_succ_le_succ hlen
      rw [replAux]
      cases hcond : leadsWith [c] (x :: t) with
      | true =>
        rw [if_pos rfl]
        intro hmem
        rcases List.mem_append.mp hmem with h1 | h2
        · exact hrep h1
        · have hd : t.drop ([c].length - 1) = t := by simp
          rw [hd] at h2
          exact ih t hlt h2
      | false =>
        simp only [Bool.false_eq_true, if_false]
        have hne : c ≠ x := by
          simp only [leadsWith, Bool.and_eq_false_iff, decide_eq_false_iff_not] at hcond
          rcases hcond with h | h
          · exact h
          · cases h
        intro hmem
        rcases List.mem_cons.mp hmem with h1 | h2
        · exact hne h1
        · exact ih t hlt h2

lemma not_mem_replaceAll_single {c : Char} {rep : List Char} (hrep : c ∉ rep)
    (s : List Char) : c ∉ replaceAll [c] rep s :=
  not_mem_replAux_single hrep s.length s (Nat.le_refl _)

lemma containsSub_single_eq_false {c : Char} :
    ∀ {h : List Char}, c ∉ h → containsSub h [c] = false := by
  intro h
  induction h with
  | nil => intro _; rfl
  | cons x t ih =>
    intro hnm
    have hcx : c ≠ x := fun he => hnm (he ▸ List.mem_cons_self x t)
    have hct : c ∉ t := fun hm => hnm (List.mem_cons_of_mem x hm)
    rw [containsSub]
    simp only [leadsWith, ih hct, Bool.or_false]
    simp [hcx]

/-! ## Claim theorems -/

/-- C7: for every integer score, the derived socioeconomic stratum equals
1 if score < 30, 2 if 30 ≤ score < 45, 3 if 45 ≤ score < 60, 4 if
60 ≤ score < 75, 5 if 75 ≤ score < 90, and 6 if score ≥ 90. -/
theorem determinarEstrato_step_function (score : Int) :
    (score < 30 → determinarEstrato score = 1) ∧
    (30 ≤ score → score < 45 → determinarEstrato score = 2) ∧
    (45 ≤ score → score < 60 → determinarEstrato score = 3) ∧
    (60 ≤ score → score < 75 → determinarEstrato score = 4) ∧
    (75 ≤ score → score < 90 → determinarEstrato score = 5) ∧
    (90 ≤ score → determinarEstrato score = 6) := by
  unfold determinarEstrato
  refine ⟨fun h => ?_, fun h1 h2 => ?_, fun h1 h2 => ?_, fun h1 h2 => ?_,
    fun h1 h2 => ?_, fun h => ?_⟩ <;> split_ifs <;> omega

/-- C7 witness: the boundary scores 29, 30, 89 and 90 give strata
1, 2, 5 and 6 respectively, by the step-function theorem. -/
theorem determinarEstrato_step_function_witness :
    determinarEstrato 29 = 1 ∧ determinarEstrato 30 = 2 ∧
    determinarEstrato 89 = 5 ∧ determinarEstrato 90 = 6 :=
  ⟨(determinarEstrato_step_function 29).1 (by decide),
   (determinarEstrato_step_function 30).2.1 (by decide) (by decide),
   (determinarEstrato_step_function 89).2.2.2.2.1 (by decide) (by decide),
   (determinarEstrato_step_function 90).2.2.2.2.2 (by decide)⟩

/-- C8: the derived estimated value is
`round(land_area * (score*50000) * 0.3 + built_area * (score*50000) * 0.7, 2)`,
and at land area 108.0, built area 175.9, score 50 it is exactly
388,825,000.00. -/
theorem calcularValorCatastral_formula :
    (∀ (landArea builtArea : ℚ) (score : Int),
      calcularValorCatastral landArea builtArea score =
        round2 (landArea * ((score : ℚ) * 50000) * (3/10) +
                builtArea * ((score : ℚ) * 50000) * (7/10))) ∧
    calcularValorCatastral 108 (1759/10) 50 = 388825000 := by
  constructor
  · intro landArea builtArea score
    rfl
  · norm_num [calcularValorCatastral, round2, roundHalfEven]

/-- C9: converting an empty Nominatim result list to the canonical
response shape yields exactly status `ZERO_RESULTS` with an empty result
list — a well-formed canonical response, not an error. -/
theorem convert_empty_is_zero_results :
    convertNominatimToGoogleFormat [] =
      { status := "ZERO_RESULTS", results := [] } := rfl

/-- C2 counterexample: the normalizer is not idempotent.  For the input
`"-"` the first pass yields `" "` (the hyphen→space replacement runs
after whitespace collapsing and trimming), and a second pass trims that
space away to `""`. -/
theorem normalize_not_idempotent_at_hyphen :
    normalizeAddress (normalizeAddress "-") ≠ normalizeAddress "-" := by
  decide

/-- C2 (amended): `normalize(normalize(x)) == normalize(x)` holds
exactly when the first pass's output is already canonical — unchanged by
lower-casing, by whitespace collapsing and trimming, and by the
replacement table.  In general idempotence fails, because the
replacement table can emit new whitespace (hyphen→space) and new key
occurrences (e.g. deleting `#` inside `nor#te` creates `norte`) that a
second pass transforms further. -/
theorem normalize_idempotent_of_canonical (x : String)
    (h1 : pyLowerStr (normalizeAddress x) = normalizeAddress x)
    (h2 : squashWs (normalizeAddress x) = normalizeAddress x)
    (h3 : applyReplsStr (normalizeAddress x) = normalizeAddress x) :
    normalizeAddress (normalizeAddress x) = normalizeAddress x := by
  have hdef : normalizeAddress (normalizeAddress x) =
      applyReplsStr (squashWs (pyLowerStr (normalizeAddress x))) := rfl
  rw [hdef, h1, h2, h3]

/-- C2 witness: the already-canonical address `"cl 65a 10"` is a fixed
point of every stage, so the theorem applies and gives idempotence
there. -/
theorem normalize_idempotent_of_canonical_witness :
    normalizeAddress (normalizeAddress "cl 65a 10") = normalizeAddress "cl 65a 10" :=
  normalize_idempotent_of_canonical "cl 65a 10" (by decide) (by decide) (by decide)

lemma applyRepls_decompose (s : List Char) :
    applyRepls s =
      replaceAll "-".data " ".data
        (replaceAll "#".data "".data (applyReplsBeforeHash s)) := by
  simp only [applyRepls, applyReplsBeforeHash, replacements, List.take, List.foldl]

lemma normalizeAddress_data (x : String) :
    (normalizeAddress x).data = applyRepls (squashWs (pyLowerStr x)).data := by
  simp only [normalizeAddress, applyReplsStr]

/-- C3 counterexample: the replacement table does not remove `"no."`
(its key is the literal four-character `no\.`, a regex escape handed to
the literal `str.replace`) nor the accented word `"número"` (its key is
the unaccented `numero`), so both survive normalization verbatim and
occur in the output. -/
theorem normalize_keeps_noDot_and_numero :
    normalizeAddress "no." = "no." ∧
    hasSubstr (normalizeAddress "no.") "no." = true ∧
    normalizeAddress "número" = "número" ∧
    hasSubstr (normalizeAddress "número") "número" = true := by
  decide

/-- C3 (amended): normalize lower-cases the input, collapses whitespace
runs to a single space and trims, then applies the ordered literal
replacement table; every `'#'` is removed and every `'-'` is replaced by
a space, so the output contains no `'#'` and no `'-'`.  The table
entries meant for `"número"`/`"no."` are the unaccented `numero` and the
literal `no\.`, so the accented word `"número"` and the token `"no."`
are not removed and can appear in the output. -/
theorem normalize_no_hash_no_hyphen (x : String) :
    hasSubstr (normalizeAddress x) "#" = false ∧
    hasSubstr (normalizeAddress x) "-" = false := by
  have hdata : (normalizeAddress x).data =
      replaceAll "-".data " ".data
        (replaceAll "#".data "".data
          (applyReplsBeforeHash (squashWs (pyLowerStr x)).data)) := by
    rw [normalizeAddress_data]
    exact applyRepls_decompose _
  have hhash : ('#' : Char) ∉ (normalizeAddress x).data := by
    rw [hdata]
    intro hmem
    rcases mem_of_mem_replAux "-".data " ".data _ _ hmem with hin | hrep
    · exact not_mem_replaceAll_single (by decide) _ hin
    · simp at hrep
  have hhyph : ('-' : Char) ∉ (normalizeAddress x).data := by
    rw [hdata]
    exact not_mem_replaceAll_single (by decide) _
  exact ⟨containsSub_single_eq_false hhash, containsSub_single_eq_false hhyph⟩

/-- C3 amended-theorem witness: instantiation at the address
`"Calle 147 #11-10"`. -/
theorem normalize_no_hash_no_hyphen_witness :
    hasSubstr (normalizeAddress "Calle 147 #11-10") "#" = false ∧
    hasSubstr (normalizeAddress "Calle 147 #11-10") "-" = false :=
  normalize_no_hash_no_hyphen "Calle 147 #11-10"

/-- C1 counterexample: `find_predio_by_address` mutates the loaded
dataset.  On a one-row dataset fresh from `load_data` (no
`normalized_address` column), a single call leaves the dataframe with a
new `normalized_address` column, so the post-call state differs from the
post-load state. -/
theorem findByAddress_mutates_dataframe :
    (findPredioByAddress (some { rows := [predioW0], normalizedCol := none })
        "cl 1" false (.ok { status := "ZERO_RESULTS", results := [] }) (.ok []) 0).2 ≠
      some { rows := [predioW0], normalizedCol := none } := by
  decide

/-- C1 (amended): `find_nearest_predio` and `find_nearby_pois` leave the
dataset unchanged, and `find_predio_by_address` never changes the rows
or the original columns of the dataset — but on a non-empty dataset it
does add (or overwrite) the derived `normalized_address` column, so the
collection is not left byte-identical to its post-load state. -/
theorem matching_ops_preserve_rows (df : Option DataFrame) (address : String)
    (useGoogle : Bool) (googleResp : Except String GeocodeResult)
    (nomResp : Except String (List NominatimResult)) (pick : Nat)
    (lat lon radius : ℚ) :
    ((findPredioByAddress df address useGoogle googleResp nomResp pick).2).map
        DataFrame.rows = df.map DataFrame.rows ∧
    (findNearestPredioSt df lat lon pick).2 = df ∧
    (findNearbyPoisSt df lat lon radius).2 = df := by
  refine ⟨?_, rfl, rfl⟩
  rcases df with _ | ⟨rows, ncol⟩
  · rfl
  · cases rows with
    | nil => rfl
    | cons p ps =>
      simp only [findPredioByAddress]
      split
      · rfl
      · split
        · rfl
        · rfl

/-- C4 counterexample: a transport exception in the Nominatim fallback
is not caught.  With no Google key configured (`use_google = False`),
a raised `requests` exception inside `_geocode_nominatim` propagates out
of `geocode_address` to its caller instead of becoming a structured
failure result. -/
theorem geocodeAddress_raises_on_fallback_error :
    geocodeAddress false (.ok { status := "ZERO_RESULTS", results := [] })
        (.error "requests.exceptions.ConnectionError") =
      .error "requests.exceptions.ConnectionError" := rfl

/-- C4 (amended): exceptions from the primary (Google) provider are
always caught and diverted to the Nominatim fallback, and
`geocode_address` and `find_predio_by_address` return a structured
result whenever the Nominatim transport and parse succeed; an exception
raised by the Nominatim fallback itself, however, propagates to the
caller. -/
theorem geocode_structured_when_fallback_ok (useGoogle : Bool)
    (googleResp : Except String GeocodeResult)
    (nomList : List NominatimResult) :
    (∃ r, geocodeAddress useGoogle googleResp (.ok nomList) = .ok r) ∧
    (∀ (e : String) (nomResp : Except String (List NominatimResult)),
      geocodeAddress true (.error e) nomResp = geocodeNominatim nomResp) ∧
    (∀ (df : Option DataFrame) (address : String) (pick : Nat),
      ∃ fr, (findPredioByAddress df address useGoogle googleResp (.ok nomList)
        pick).1 = .ok fr) := by
  have hok : ∃ r, geocodeAddress useGoogle googleResp (.ok nomList) = .ok r := by
    cases useGoogle with
    | false => exact ⟨_, rfl⟩
    | true =>
      cases googleResp with
      | error e => exact ⟨_, rfl⟩
      | ok g =>
        by_cases hst : g.status = "OK"
        · exact ⟨g, by simp [geocodeAddress, hst]⟩
        · exact ⟨convertNominatimToGoogleFormat nomList,
            by simp [geocodeAddress, hst, geocodeNominatim]⟩
  refine ⟨hok, fun e nomResp => rfl, fun df address pick => ?_⟩
  obtain ⟨r, hr⟩ := hok
  have hgeo : ∃ fr, findPredioByGeocoding df address useGoogle googleResp
      (.ok nomList) pick = .ok fr := by
    unfold findPredioByGeocoding
    simp only [hr]
    split
    · exact ⟨_, rfl⟩
    · split
      · exact ⟨_, rfl⟩
      · exact ⟨_, rfl⟩
  rcases df with _ | ⟨rows, ncol⟩
  · exact ⟨_, rfl⟩
  · cases rows with
    | nil => exact ⟨_, rfl⟩
    | cons p ps =>
      simp only [findPredioByAddress]
      split
      · exact ⟨_, rfl⟩
      · split
        · exact ⟨_, rfl⟩
        · exact hgeo

/-- C5: on a non-empty dataset, `find_predio_by_address` follows strict
priority — the first record (in dataset order) whose normalized address
equals the normalized query wins; otherwise the first record whose
normalized address contains the normalized query as a substring wins;
only when neither exists is the geocoding fallback invoked (on the
dataset carrying the freshly assigned `normalized_address` column). -/
theorem findByAddress_match_priority (d : DataFrame) (address : String)
    (useGoogle : Bool) (googleResp : Except String GeocodeResult)
    (nomResp : Except String (List NominatimResult)) (pick : Nat)
    (hne : d.rows ≠ []) :
    (∀ q, d.rows.find?
        (fun r => normalizeAddress r.PREDIRECC == normalizeAddress address) = some q →
      (findPredioByAddress (some d) address useGoogle googleResp nomResp pick).1 =
        .ok (formatPredioInfo q)) ∧
    (d.rows.find?
        (fun r => normalizeAddress r.PREDIRECC == normalizeAddress address) = none →
      (∀ q, d.rows.find?
          (fun r => hasSubstr (normalizeAddress r.PREDIRECC)
            (normalizeAddress address)) = some q →
        (findPredioByAddress (some d) address useGoogle googleResp nomResp pick).1 =
          .ok (formatPredioInfo q)) ∧
      (d.rows.find?
          (fun r => hasSubstr (normalizeAddress r.PREDIRECC)
            (normalizeAddress address)) = none →
        (findPredioByAddress (some d) address useGoogle googleResp nomResp pick).1 =
          findPredioByGeocoding
            (some
              { d with
                normalizedCol :=
                  some (d.rows.map fun r => normalizeAddress r.PREDIRECC) })
            address useGoogle googleResp nomResp pick)) := by
  obtain ⟨p, ps, hrows⟩ := List.exists_cons_of_ne_nil hne
  refine ⟨?_, fun hE => ⟨?_, fun hP => ?_⟩⟩
  · intro q hq
    rw [hrows] at hq
    simp only [findPredioByAddress, hrows, hq]
  · intro q hq
    rw [hrows] at hE hq
    simp only [findPredioByAddress, hrows, hE, hq]
  · rw [hrows] at hE hP
    simp only [findPredioByAddress, hrows, hE, hP]

/-- C5 witness: on the dataset `[predioW0, predioW1]` — where the first
row ("CL 10") only contains the query and the second row ("CL 1")
matches it exactly — the query "CL 1" returns the exact-match record
`predioW1`, by the priority theorem. -/
theorem findByAddress_match_priority_witness :
    (findPredioByAddress
        (some { rows := [predioW0, predioW1], normalizedCol := none }) "CL 1" false
        (.ok { status := "ZERO_RESULTS", results := [] }) (.ok []) 0).1 =
      .ok (formatPredioInfo predioW1) :=
  (findByAddress_match_priority
      { rows := [predioW0, predioW1], normalizedCol := none } "CL 1" false
      (.ok { status := "ZERO_RESULTS", results := [] }) (.ok []) 0
      (by decide)).1 predioW1 (by decide)

/-- C6: whenever the dataset is unavailable (`None`) or empty,
`find_predio_by_address` (for every address) and `find_nearest_predio`
(for every coordinate pair) return the structured "no data loaded"
failure, leave the state untouched, and the outcome is independent of
every provider-oracle argument — no normalization result and no
geocoding response can influence it. -/
theorem find_ops_fail_without_data (df : Option DataFrame)
    (h : df = none ∨ ∃ d, df = some d ∧ d.rows = []) :
    ∀ (address : String) (useGoogle : Bool)
      (googleResp : Except String GeocodeResult)
      (nomResp : Except String (List NominatimResult)) (pick : Nat) (lat lon : ℚ),
      findPredioByAddress df address useGoogle googleResp nomResp pick =
        (.ok (.fail noDataErr), df) ∧
      findNearestPredio df lat lon pick = .fail noDataErr := by
  intro address useGoogle googleResp nomResp pick lat lon
  rcases h with h | ⟨d, hdf, hrows⟩
  · subst h
    exact ⟨rfl, rfl⟩
  · subst hdf
    rcases d with ⟨rows, ncol⟩
    cases rows with
    | nil => exact ⟨rfl, rfl⟩
    | cons p ps => simp at hrows

/-- C6 witness: instantiation on the empty dataframe left by a failed
`load_data`, with arbitrary concrete oracles. -/
theorem find_ops_fail_without_data_witness :
    findPredioByAddress (some { rows := [], normalizedCol := none }) "Calle 147" true
        (.ok { status := "OK", results := [] }) (.error "boom") 7 =
      (.ok (.fail noDataErr), some { rows := [], normalizedCol := none }) ∧
    findNearestPredio (some { rows := [], normalizedCol := none }) 4 (-74) 7 =
      .fail noDataErr :=
  find_ops_fail_without_data (some { rows := [], normalizedCol := none })
    (Or.inr ⟨{ rows := [], normalizedCol := none }, rfl, rfl⟩)
    "Calle 147" true (.ok { status := "OK", results := [] }) (.error "boom") 7 4 (-74)

/-- C10: on a non-empty dataset none of whose stored addresses
normalizes to the empty string, any query whose normalization is empty
(e.g. `"#"`) succeeds through the partial-match branch — the empty
needle is a substring of every normalized record address, so the first
record of the dataset is returned and the geocoding fallback is never
consulted. -/
theorem findByAddress_empty_normalized_query (d : DataFrame) (p : Predio)
    (ps : List Predio) (address : String) (useGoogle : Bool)
    (googleResp : Except String GeocodeResult)
    (nomResp : Except String (List NominatimResult)) (pick : Nat)
    (hrows : d.rows = p :: ps)
    (hnz : ∀ r ∈ d.rows, normalizeAddress r.PREDIRECC ≠ "")
    (hq : normalizeAddress address = "") :
    (findPredioByAddress (some d) address useGoogle googleResp nomResp pick).1 =
      .ok (formatPredioInfo p) := by
  have hE : d.rows.find?
      (fun r => normalizeAddress r.PREDIRECC == normalizeAddress address) = none := by
    rw [List.find?_eq_none]
    intro r hr
    rw [hq]
    simp [hnz r hr]
  have hP : d.rows.find?
      (fun r => hasSubstr (normalizeAddress r.PREDIRECC)
        (normalizeAddress address)) = some p := by
    rw [hrows]
    refine List.find?_cons_of_pos _ ?_
    rw [hq]
    exact hasSubstr_empty_needle _
  rw [hrows] at hE hP
  simp only [findPredioByAddress, hrows, hE, hP]

/-- C10 witness: on the one-row dataset `[predioW0]` (stored address
"CL 10", normalizing to "cl 10" ≠ ""), the query `"#"` normalizes to the
empty string and returns the first record. -/
theorem findByAddress_empty_normalized_query_witness :
    (findPredioByAddress (some { rows := [predioW0], normalizedCol := none }) "#" false
        (.ok { status := "ZERO_RESULTS", results := [] }) (.ok []) 3).1 =
      .ok (formatPredioInfo predioW0) :=
  findByAddress_empty_normalized_query
    { rows := [predioW0], normalizedCol := none } predioW0 [] "#" false
    (.ok { status := "ZERO_RESULTS", results := [] }) (.ok []) 3
    rfl (by decide) (by decide)
